import Mathlib

/-!
Shallow embedding of the weather-dashboard API-normalization layer
(src/api/rainviewer.py, src/api/open_meteo.py, src/dashboard.py,
src/charts/model_comparison.py, src/maps/weather_maps.py).

JSON values returned by the upstream services are modelled by the
inductive type `JSON`; Python runtime exceptions that the code can
raise or catch are modelled by `PyErr`, and fallible code returns
`Except PyErr`.  The HTTP transport is a parameter (a function from
request to outcome), so that the adapters become pure functions of the
stubbed transport.
-/

/-- JSON values, as produced by response.json() in the source. -/
inductive JSON where
  | null
  | bool (b : Bool)
  | int (n : Int)
  | str (s : String)
  | arr (xs : List JSON)
  | obj (kvs : List (String × JSON))
deriving Repr

/-- Python runtime exceptions relevant to the embedded code. -/
inductive PyErr where
  | keyError
  | indexError
  | typeError
  | attributeError
deriving Repr, DecidableEq

/-- Python truthiness of a JSON value (bool(x)): None, False, 0, empty
string, empty list and empty dict are falsy. -/
def truthy : JSON → Bool
  | .null => false
  | .bool b => b
  | .int n => n != 0
  | .str s => !s.isEmpty
  | .arr xs => !xs.isEmpty
  | .obj kvs => !kvs.isEmpty

/-- Python dict.get(k, default): returns the value bound to the key,
or the default when the key is missing; raises AttributeError when the
receiver is not a dict. -/
def dictGet (v : JSON) (k : String) (default : JSON) : Except PyErr JSON :=
  match v with
  | .obj kvs => .ok ((kvs.lookup k).getD default)
  | _ => .error .attributeError

/-- Python list indexing with negative-index wraparound: xs[i] is
xs[i + len] for negative i; out of range raises IndexError. -/
def pyIndex (xs : List JSON) (i : Int) : Except PyErr JSON :=
  let n : Int := xs.length
  let eff : Int := if i < 0 then i + n else i
  if h : 0 ≤ eff ∧ eff < n then
    .ok (xs.get ⟨eff.toNat, by omega⟩)
  else
    .error .indexError

/-- Python subscript v[k]: dict lookup (KeyError when missing),
list/str indexing (IndexError when out of range, TypeError on a
non-integer index), TypeError otherwise.  The dict keys appearing in
the embedded code are always strings, so a non-string key on a dict is
reported as missing (KeyError) unless it is unhashable (TypeError). -/
def pySubscript (v : JSON) (k : JSON) : Except PyErr JSON :=
  match v with
  | .obj kvs =>
    match k with
    | .str s =>
      match kvs.lookup s with
      | some x => .ok x
      | none => .error .keyError
    | .arr _ => .error .typeError
    | .obj _ => .error .typeError
    | _ => .error .keyError
  | .arr xs =>
    match k with
    | .int i => pyIndex xs i
    | _ => .error .typeError
  | .str s =>
    match k with
    | .int i =>
      match pyIndex (s.toList.map (fun c => .str c.toString)) i with
      | .ok x => .ok x
      | .error e => .error e
    | _ => .error .typeError
  | _ => .error .typeError

/-- Python iteration (for x in v): lists yield their elements, strings
their one-character substrings, dicts their keys; other values raise
TypeError. -/
def pyIter (v : JSON) : Except PyErr (List JSON) :=
  match v with
  | .arr xs => .ok xs
  | .str s => .ok (s.toList.map (fun c => .str c.toString))
  | .obj kvs => .ok (kvs.map (fun kv => .str kv.1))
  | _ => .error .typeError

/-- Occurrence test for a substring, used for the Python operator
(k in s) on strings. -/
def pyStrContains (s k : String) : Bool :=
  if k.isEmpty then true else (s.splitOn k).length > 1

/-- Python membership test (k in v) for a string k: key test on dicts,
element test on lists, substring test on strings, TypeError otherwise. -/
def pyContains (v : JSON) (k : String) : Except PyErr Bool :=
  match v with
  | .obj kvs => .ok (kvs.any (fun kv => kv.1 == k))
  | .arr xs => .ok (xs.any (fun x => match x with | .str s => s == k | _ => false))
  | .str s => .ok (pyStrContains s k)
  | _ => .error .typeError

mutual

/-- Rendering of a JSON value as by Python repr, used for values
nested inside containers that are interpolated into f-strings.  The
quote characters around strings are reproduced; escaping of quote
characters inside a string is not modelled (no embedded code path
depends on it). -/
def pyRepr : JSON → String
  | .null => "None"
  | .bool true => "True"
  | .bool false => "False"
  | .int n => toString n
  | .str s => "\x27" ++ s ++ "\x27"
  | .arr xs => "[" ++ ", ".intercalate (pyReprList xs) ++ "]"
  | .obj kvs => "\x7b" ++ ", ".intercalate (pyReprKVs kvs) ++ "\x7d"

/-- Renders each element of a list by pyRepr. -/
def pyReprList : List JSON → List String
  | [] => []
  | x :: xs => pyRepr x :: pyReprList xs

/-- Renders each binding of a dict by pyRepr. -/
def pyReprKVs : List (String × JSON) → List String
  | [] => []
  | (k, v) :: kvs => ("\x27" ++ k ++ "\x27: " ++ pyRepr v) :: pyReprKVs kvs

end

/-- Rendering of a JSON value as by Python str(), as used by f-string
interpolation: strings render as themselves, other values as their
repr. -/
def pyStr : JSON → String
  | .str s => s
  | v => pyRepr v

/-!
Embedding of src/api/rainviewer.py.
-/

/-- Default tile host used by both rainviewer normalizers when the
payload has no host field. -/
def DEFAULT_RADAR_HOST : String := "https://tilecache.rainviewer.com"

/-- Fixed tail of the tile URL template; the zoom and x and y
placeholders stay literal braces in the produced string. -/
def TILE_SUFFIX : String := "/256/\x7bz\x7d/\x7bx\x7d/\x7by\x7d/2/1_1.png"

/-- Try-block body of get_radar_tile_url (src/api/rainviewer.py lines
35 to 43): looks up radar.past with empty-container defaults, returns
None for a falsy frame list, indexes the frame, reads its path, and
formats the tile URL. -/
def tileUrlBody (radar_data : JSON) (frame_index : Int) : Except PyErr (Option String) :=
  match dictGet radar_data "radar" (.obj []) with
  | .error e => .error e
  | .ok radar =>
    match dictGet radar "past" (.arr []) with
    | .error e => .error e
    | .ok radar_frames =>
      if !truthy radar_frames then .ok none
      else
        match pySubscript radar_frames (.int frame_index) with
        | .error e => .error e
        | .ok frame =>
          match pySubscript frame (.str "path") with
          | .error e => .error e
          | .ok path =>
            match dictGet radar_data "host" (.str DEFAULT_RADAR_HOST) with
            | .error e => .error e
            | .ok host =>
              .ok (some (pyStr host ++ pyStr path ++ TILE_SUFFIX))

/-- The except clause of get_radar_tile_url: KeyError and IndexError
become None, other exceptions propagate. -/
def catchKeyIndex (r : Except PyErr (Option String)) : Except PyErr (Option String) :=
  match r with
  | .error .keyError => .ok none
  | .error .indexError => .ok none
  | other => other

/-- Embedding of get_radar_tile_url (src/api/rainviewer.py lines
24 to 46): the try-block body under the KeyError/IndexError catch. -/
def get_radar_tile_url (radar_data : JSON) (frame_index : Int) : Except PyErr (Option String) :=
  catchKeyIndex (tileUrlBody radar_data frame_index)

/-- A radar frame as built by get_all_radar_frames: the raw time value
of the upstream entry and the formatted tile URL. -/
structure RadarFrame where
  time : JSON
  url : String
deriving Repr

/-- The frame built from one well-formed entry of radar.past. -/
def mkRadarFrame (host : JSON) (frame : JSON) : RadarFrame :=
  { time := match pySubscript frame (.str "time") with | .ok t => t | .error _ => .null
    url := pyStr host ++
      (match pySubscript frame (.str "path") with | .ok p => pyStr p | .error _ => "") ++
      TILE_SUFFIX }

/-- Loop body of get_all_radar_frames: walks the frame list in order,
appending a frame per entry, and stops at the first entry whose path
or time lookup raises, reporting the exception together with the
frames accumulated so far. -/
def framesLoop (host : JSON) (acc : List RadarFrame) :
    List JSON → List RadarFrame × Option PyErr
  | [] => (acc, none)
  | f :: rest =>
    match pySubscript f (.str "path") with
    | .error e => (acc, some e)
    | .ok path =>
      match pySubscript f (.str "time") with
      | .error e => (acc, some e)
      | .ok time =>
        framesLoop host
          (acc ++ [{ time := time, url := pyStr host ++ pyStr path ++ TILE_SUFFIX }]) rest

/-- The lookups of get_all_radar_frames before its loop
(src/api/rainviewer.py lines 58 and 59, plus the iterability of the
frame list demanded by the for statement): the host with its default,
then radar.past with empty-container defaults. -/
def radarFramesSetup (radar_data : JSON) : Except PyErr (JSON × List JSON) :=
  match dictGet radar_data "host" (.str DEFAULT_RADAR_HOST) with
  | .error e => .error e
  | .ok host =>
    match dictGet radar_data "radar" (.obj []) with
    | .error e => .error e
    | .ok radar =>
      match dictGet radar "past" (.arr []) with
      | .error e => .error e
      | .ok radar_frames =>
        match pyIter radar_frames with
        | .error e => .error e
        | .ok xs => .ok (host, xs)

/-- Embedding of get_all_radar_frames (src/api/rainviewer.py lines
49 to 69): the frames accumulator is initialised before the try block,
so an exception raised mid-loop leaves the already-appended frames in
the returned list; the except clause catches KeyError and TypeError
(converting them to the accumulated list), while other exceptions
propagate. -/
def get_all_radar_frames (radar_data : JSON) : Except PyErr (List RadarFrame) :=
  match radarFramesSetup radar_data with
  | .error .keyError => .ok []
  | .error .typeError => .ok []
  | .error e => .error e
  | .ok (host, xs) =>
    match framesLoop host [] xs with
    | (acc, none) => .ok acc
    | (acc, some .keyError) => .ok acc
    | (acc, some .typeError) => .ok acc
    | (_, some e) => .error e

/-!
Embedding of the fetch adapters in src/dashboard.py.  The HTTP
transport is stubbed by a function from URL to outcome; the four
outcome shapes cover a transport error raised by the client, a non-2xx
status raised by raise_for_status, a body that response.json() fails
to parse, and a parsed JSON body.
-/

/-- Outcome of one stubbed HTTP GET. -/
inductive NetResult where
  | transportError
  | httpError
  | badJson
  | ok (body : JSON)

/-- Base URL of the National Weather Service API. -/
def NWS_API_BASE : String := "https://api.weather.gov"

/-- Embedding of make_nws_request (src/dashboard.py lines 38 to 46):
performs one GET and returns the parsed body, with every exception in
the try block (transport error, raise_for_status, json decoding, and
a client error on a non-string URL argument) swallowed into None. -/
def make_nws_request (net : String → NetResult) (url : JSON) : Option JSON :=
  match url with
  | .str s =>
    match net s with
    | .ok body => some body
    | _ => none
  | _ => none

/-- The active-alerts URL requested by fetch_alerts. -/
def alertsUrl (state : String) : String :=
  NWS_API_BASE ++ "/alerts/active/area/" ++ state

/-- Embedding of fetch_alerts (src/dashboard.py lines 49 to 54):
one GET to the active-alerts endpoint; None when the body is falsy or
has no features key, the raw features value otherwise.  A successful
body that is not a dict can raise out of the membership test or the
subscript, which the source does not catch. -/
def fetch_alerts (net : String → NetResult) (state : String) : Except PyErr (Option JSON) :=
  match make_nws_request net (.str (alertsUrl state)) with
  | none => .ok none
  | some data =>
    if !truthy data then .ok none
    else
      match pyContains data "features" with
      | .error e => .error e
      | .ok b =>
        if !b then .ok none
        else
          match pySubscript data (.str "features") with
          | .error e => .error e
          | .ok features => .ok (some features)

/-- The points URL requested first by fetch_forecast. -/
def pointsUrl (latitude longitude : String) : String :=
  NWS_API_BASE ++ "/points/" ++ latitude ++ "," ++ longitude

/-- Embedding of fetch_forecast (src/dashboard.py lines 57 to 66).
The coordinates are taken already rendered to the decimal strings that
the f-string interpolates into the points URL.  The second component
of the result is the list of URL values passed to make_nws_request, in
order, so that the number of requests issued is observable.  The key
lookups on the two payloads are not inside any try block in the
source, so their exceptions propagate. -/
def fetch_forecast (net : String → NetResult) (latitude longitude : String) :
    Except PyErr (Option JSON) × List JSON :=
  let points_url : JSON := .str (pointsUrl latitude longitude)
  match make_nws_request net points_url with
  | none => (.ok none, [points_url])
  | some points_data =>
    if !truthy points_data then (.ok none, [points_url])
    else
      match pySubscript points_data (.str "properties") with
      | .error e => (.error e, [points_url])
      | .ok props =>
        match pySubscript props (.str "forecast") with
        | .error e => (.error e, [points_url])
        | .ok forecast_url =>
          match make_nws_request net forecast_url with
          | none => (.ok none, [points_url, forecast_url])
          | some forecast_data =>
            if !truthy forecast_data then (.ok none, [points_url, forecast_url])
            else
              match pySubscript forecast_data (.str "properties") with
              | .error e => (.error e, [points_url, forecast_url])
              | .ok fprops =>
                match pySubscript fprops (.str "periods") with
                | .error e => (.error e, [points_url, forecast_url])
                | .ok periods => (.ok (some periods), [points_url, forecast_url])

/-!
Embedding of src/api/open_meteo.py.  A request to Open-Meteo is
identified by its query parameters; the transport is stubbed by a
function from parameters to outcome.
-/

/-- Query parameters of one Open-Meteo GET, as assembled by
fetch_model_forecast; timezone and forecast_days are fixed. -/
structure OMParams where
  latitude : String
  longitude : String
  models : String
  hourly : String
  timezone : String
  forecast_days : Int
deriving Repr, DecidableEq

/-- Default variable list of fetch_model_forecast. -/
def DEFAULT_VARIABLES : List String :=
  ["temperature_2m", "relative_humidity_2m", "precipitation",
   "wind_speed_10m", "wind_direction_10m", "weather_code"]

/-- Embedding of fetch_model_forecast (src/api/open_meteo.py lines
8 to 51): fills in the default variable list, issues one GET with the
assembled parameters, and swallows every failure into None.  The
source parameter named variables is renamed varList here because that
word is reserved in Lean. -/
def fetch_model_forecast (net : OMParams → NetResult) (latitude longitude : String)
    (model : String) (varList : Option (List String)) : Option JSON :=
  let vars := varList.getD DEFAULT_VARIABLES
  let params : OMParams :=
    { latitude := latitude, longitude := longitude, models := model,
      hourly := ",".intercalate vars, timezone := "auto", forecast_days := 7 }
  match net params with
  | .ok body => some body
  | _ => none

/-- Embedding of fetch_multi_model_comparison (src/api/open_meteo.py
lines 54 to 71): two calls to fetch_model_forecast, GFS then ECMWF,
packed into a dict with the keys gfs and ecmwf. -/
def fetch_multi_model_comparison (net : OMParams → NetResult) (latitude longitude : String)
    (varList : Option (List String)) : List (String × Option JSON) :=
  let gfs_data := fetch_model_forecast net latitude longitude "gfs_seamless" varList
  let ecmwf_data := fetch_model_forecast net latitude longitude "ecmwf_ifs" varList
  [("gfs", gfs_data), ("ecmwf", ecmwf_data)]

/-!
Embedding of src/charts/model_comparison.py.  A figure is modelled by
its ordered list of traces; a trace keeps its legend name and its x
and y data series.  Styling attributes (colors, line widths, subplot
positions, layout) carry no data and are not modelled.
-/

/-- One chart trace: legend name and data series. -/
structure Trace where
  name : String
  x : JSON
  y : JSON
deriving Repr

/-- One guarded trace block, as repeated in every chart builder: the
block runs only when the model payload is present, truthy and has an
hourly key; it then reads hourly.time and the hourly series of the
given variable, letting lookup exceptions propagate. -/
def modelTrace (data : Option JSON) (label : String) (varName : String) :
    Except PyErr (List Trace) :=
  match data with
  | none => .ok []
  | some d =>
    if !truthy d then .ok []
    else
      match pyContains d "hourly" with
      | .error e => .error e
      | .ok b =>
        if !b then .ok []
        else
          match pySubscript d (.str "hourly") with
          | .error e => .error e
          | .ok hourly =>
            match pySubscript hourly (.str "time") with
            | .error e => .error e
            | .ok xs =>
              match pySubscript hourly (.str varName) with
              | .error e => .error e
              | .ok ys => .ok [{ name := label, x := xs, y := ys }]

/-- Sequences two guarded trace blocks, keeping their order. -/
def traceSeq (a b : Except PyErr (List Trace)) : Except PyErr (List Trace) :=
  match a with
  | .error e => .error e
  | .ok ta =>
    match b with
    | .error e => .error e
    | .ok tb => .ok (ta ++ tb)

/-- Embedding of create_temperature_comparison_chart
(src/charts/model_comparison.py lines 7 to 44): a GFS block then an
ECMWF block over the temperature_2m series. -/
def create_temperature_comparison_chart (gfs_data ecmwf_data : Option JSON) :
    Except PyErr (List Trace) :=
  traceSeq (modelTrace gfs_data "GFS" "temperature_2m")
    (modelTrace ecmwf_data "ECMWF" "temperature_2m")

/-- Embedding of create_precipitation_comparison_chart
(src/charts/model_comparison.py lines 47 to 86). -/
def create_precipitation_comparison_chart (gfs_data ecmwf_data : Option JSON) :
    Except PyErr (List Trace) :=
  traceSeq (modelTrace gfs_data "GFS" "precipitation")
    (modelTrace ecmwf_data "ECMWF" "precipitation")

/-- Embedding of create_wind_comparison_chart
(src/charts/model_comparison.py lines 89 to 129). -/
def create_wind_comparison_chart (gfs_data ecmwf_data : Option JSON) :
    Except PyErr (List Trace) :=
  traceSeq (modelTrace gfs_data "GFS" "wind_speed_10m")
    (modelTrace ecmwf_data "ECMWF" "wind_speed_10m")

/-- Embedding of create_multi_variable_dashboard
(src/charts/model_comparison.py lines 132 to 273): eight guarded
blocks in source order, two models for each of temperature,
precipitation, wind speed and humidity. -/
def create_multi_variable_dashboard (gfs_data ecmwf_data : Option JSON) :
    Except PyErr (List Trace) :=
  traceSeq (modelTrace gfs_data "GFS" "temperature_2m")
    (traceSeq (modelTrace ecmwf_data "ECMWF" "temperature_2m")
      (traceSeq (modelTrace gfs_data "GFS Precip" "precipitation")
        (traceSeq (modelTrace ecmwf_data "ECMWF Precip" "precipitation")
          (traceSeq (modelTrace gfs_data "GFS Wind" "wind_speed_10m")
            (traceSeq (modelTrace ecmwf_data "ECMWF Wind" "wind_speed_10m")
              (traceSeq (modelTrace gfs_data "GFS Humidity" "relative_humidity_2m")
                (modelTrace ecmwf_data "ECMWF Humidity" "relative_humidity_2m")))))))

/-!
Embedding of src/maps/weather_maps.py (create_alerts_map).  A map is
modelled by its ordered list of overlay elements; coordinates (the
STATE_CENTERS table and marker locations) are floating-point display
data and are abstracted away, as are popup texts, which are f-strings
that never raise.
-/

/-- The fixed severity palette (src/maps/weather_maps.py lines 57
to 63). -/
def SEVERITY_COLORS : List (String × String) :=
  [("Extreme", "#FF0000"), ("Severe", "#FF6600"), ("Moderate", "#FFCC00"),
   ("Minor", "#00FF00"), ("Unknown", "#808080")]

/-- One overlay element of the alerts map: a styled GeoJson shape or
the fallback marker pin. -/
inductive MapElement where
  | geoShape (color : String) (geometry : JSON)
  | markerPin
deriving Repr

/-- SEVERITY_COLORS.get(severity, gray): a string severity selects
from the palette with the gray default; a non-string hashable value is
simply an absent key, while an unhashable value (list or dict) raises
TypeError. -/
def severityColor (severity : JSON) : Except PyErr String :=
  match severity with
  | .str s => .ok ((SEVERITY_COLORS.lookup s).getD "#808080")
  | .arr _ => .error .typeError
  | .obj _ => .error .typeError
  | _ => .ok "#808080"

/-- The Python membership test of the geometry type against the list
of the two polygon type names, which compares by equality. -/
def isPolygonalType (gtype : JSON) : Bool :=
  match gtype with
  | .str s => s == "Polygon" || s == "MultiPolygon"
  | _ => false

/-- Per-alert body of the loop in create_alerts_map
(src/maps/weather_maps.py lines 78 to 111): reads properties and
geometry with defaults, resolves the severity color and the popup
fields, and adds a styled GeoJson shape when the geometry is truthy
with a Polygon or MultiPolygon type, a fallback marker otherwise. -/
def alertElement (alert : JSON) : Except PyErr MapElement :=
  match dictGet alert "properties" (.obj []) with
  | .error e => .error e
  | .ok props =>
    match dictGet alert "geometry" .null with
    | .error e => .error e
    | .ok geometry =>
      match dictGet props "severity" (.str "Unknown") with
      | .error e => .error e
      | .ok severity =>
        match severityColor severity with
        | .error e => .error e
        | .ok color =>
          match dictGet props "event" (.str "Unknown Event") with
          | .error e => .error e
          | .ok _event =>
            match dictGet props "areaDesc" (.str "Unknown Area") with
            | .error e => .error e
            | .ok _area =>
              if truthy geometry then
                match dictGet geometry "type" .null with
                | .error e => .error e
                | .ok gtype =>
                  if isPolygonalType gtype then .ok (.geoShape color geometry)
                  else .ok .markerPin
              else .ok .markerPin

/-- The alert loop of create_alerts_map, in input order; an exception
raised for one alert propagates out of the builder. -/
def alertsLoop : List JSON → Except PyErr (List MapElement)
  | [] => .ok []
  | a :: rest =>
    match alertElement a with
    | .error e => .error e
    | .ok el =>
      match alertsLoop rest with
      | .error e => .error e
      | .ok els => .ok (el :: els)

/-- Embedding of create_alerts_map (src/maps/weather_maps.py lines
66 to 113): one overlay element per alert, in input order.  The map
base (centering by state code, zoom, tile style) carries no alert data
and is abstracted away. -/
def create_alerts_map (alerts : List JSON) (_state_code : String) :
    Except PyErr (List MapElement) :=
  alertsLoop alerts

/-!
Specification-side helper definitions used by the theorems below.
-/

/-- Whether an Except value carries a result. -/
def isOkE {α : Type} (r : Except PyErr α) : Bool :=
  match r with
  | .ok _ => true
  | .error _ => false

/-- A radar.past entry is well formed when both its path and its time
lookups succeed. -/
def wellFrame (f : JSON) : Bool :=
  isOkE (pySubscript f (.str "path")) && isOkE (pySubscript f (.str "time"))

/-- The path value of a radar.past entry. -/
def framePath (f : JSON) : JSON :=
  match pySubscript f (.str "path") with
  | .ok p => p
  | .error _ => .null

/-- The exception raised by the first malformed entry of a frame list,
if any: the loop of get_all_radar_frames stops there. -/
def firstFrameErr : List JSON → Option PyErr
  | [] => none
  | f :: rest =>
    match pySubscript f (.str "path") with
    | .error e => some e
    | .ok _ =>
      match pySubscript f (.str "time") with
      | .error e => some e
      | .ok _ => firstFrameErr rest

/-- Whether a JSON value can be used as a Python dict key: lists and
dicts are unhashable. -/
def isHashable : JSON → Bool
  | .arr _ => false
  | .obj _ => false
  | _ => true

/-- The properties value read by the alerts-map loop for one alert. -/
def alertProps (a : JSON) : JSON :=
  match dictGet a "properties" (.obj []) with
  | .ok p => p
  | .error _ => .null

/-- The geometry value read by the alerts-map loop for one alert. -/
def alertGeom (a : JSON) : JSON :=
  match dictGet a "geometry" .null with
  | .ok g => g
  | .error _ => .null

/-- The severity value read by the alerts-map loop for one alert. -/
def alertSeverity (a : JSON) : JSON :=
  match dictGet (alertProps a) "severity" (.str "Unknown") with
  | .ok s => s
  | .error _ => .null

/-- The palette color selected for one alert. -/
def alertColor (a : JSON) : String :=
  match severityColor (alertSeverity a) with
  | .ok c => c
  | .error _ => "#808080"

/-- Whether one alert takes the polygon branch of the alerts-map loop:
truthy geometry whose type is Polygon or MultiPolygon. -/
def alertIsPolygonal (a : JSON) : Bool :=
  truthy (alertGeom a) &&
    (match dictGet (alertGeom a) "type" .null with
     | .ok t => isPolygonalType t
     | .error _ => false)

/-- The map element the claim predicts for one alert: a shape in the
palette color of its severity when the geometry is polygonal, the
fallback marker otherwise. -/
def expectedAlertElement (a : JSON) : MapElement :=
  if alertIsPolygonal a then .geoShape (alertColor a) (alertGeom a) else .markerPin

/-- Structural well-formedness of one alert feature: a dict whose
properties value is a dict, whose severity value is hashable, and
whose geometry value, when truthy, is a dict. -/
def WellFormedAlert (a : JSON) : Prop :=
  ∃ akvs pkvs, a = .obj akvs
    ∧ (akvs.lookup "properties").getD (.obj []) = .obj pkvs
    ∧ isHashable ((pkvs.lookup "severity").getD (.str "Unknown")) = true
    ∧ (truthy ((akvs.lookup "geometry").getD .null) = true →
        ∃ gkvs, (akvs.lookup "geometry").getD .null = .obj gkvs)

/-!
Shared lemmas.
-/

/-- A successful association lookup makes the key-membership test
succeed. -/
theorem lookup_some_any (kvs : List (String × JSON)) (k : String) (v : JSON)
    (h : kvs.lookup k = some v) : kvs.any (fun kv => kv.1 == k) = true := by
  induction kvs with
  | nil => simp [List.lookup] at h
  | cons kv rest ih =>
    obtain ⟨a, b⟩ := kv
    by_cases hk : k = a
    · rw [List.any_cons]
      have ha : ((a, b).1 == k) = true := by
        subst hk
        exact beq_self_eq_true k
      rw [ha, Bool.true_or]
    · have hbeq : (k == a) = false := beq_eq_false_iff_ne.mpr hk
      simp only [List.lookup, hbeq] at h
      rw [List.any_cons, ih h, Bool.or_true]

/-- A failed association lookup makes the key-membership test fail. -/
theorem lookup_none_any (kvs : List (String × JSON)) (k : String)
    (h : kvs.lookup k = none) : kvs.any (fun kv => kv.1 == k) = false := by
  induction kvs with
  | nil => rfl
  | cons kv rest ih =>
    obtain ⟨a, b⟩ := kv
    by_cases hk : k = a
    · subst hk
      simp [List.lookup] at h
    · have hbeq : (k == a) = false := beq_eq_false_iff_ne.mpr hk
      simp only [List.lookup, hbeq] at h
      have ha : ((a, b).1 == k) = false :=
        beq_eq_false_iff_ne.mpr (fun he => hk he.symm)
      rw [List.any_cons, ha, Bool.false_or]
      exact ih h

/-- Subscripting any value with a string key can only raise KeyError
or TypeError. -/
theorem pySubscript_strkey_err (v : JSON) (k : String) (e : PyErr)
    (h : pySubscript v (.str k) = .error e) :
    e = .keyError ∨ e = .typeError := by
  cases v with
  | obj kvs =>
    simp only [pySubscript] at h
    cases hl : kvs.lookup k with
    | some x => rw [hl] at h; simp at h
    | none => rw [hl] at h; simp at h; left; exact h.symm
  | arr xs => simp only [pySubscript] at h; right; cases h; rfl
  | str s => simp only [pySubscript] at h; right; cases h; rfl
  | null => simp only [pySubscript] at h; right; cases h; rfl
  | bool b => simp only [pySubscript] at h; right; cases h; rfl
  | int n => simp only [pySubscript] at h; right; cases h; rfl

/-- Subscripting an object with a present key yields its value. -/
theorem pySubscript_obj_some (kvs : List (String × JSON)) (k : String) (v : JSON)
    (h : kvs.lookup k = some v) : pySubscript (.obj kvs) (.str k) = .ok v := by
  simp only [pySubscript, h]

/-- Subscripting an object with an absent key raises KeyError. -/
theorem pySubscript_obj_none (kvs : List (String × JSON)) (k : String)
    (h : kvs.lookup k = none) : pySubscript (.obj kvs) (.str k) = .error .keyError := by
  simp only [pySubscript, h]

/-- Indexing by a natural number inside the range yields the element
there. -/
theorem pyIndex_nat (xs : List JSON) (i : Nat) (h : i < xs.length) :
    pyIndex xs (i : Int) = .ok (xs.get ⟨i, h⟩) := by
  unfold pyIndex
  have hnn : ¬ ((i : Int) < 0) := by omega
  have hb : 0 ≤ (i : Int) ∧ (i : Int) < (xs.length : Int) := by omega
  simp only [hnn, if_false, dif_pos hb]
  have ht : ((i : Int)).toNat = i := by omega
  simp only [List.get_eq_getElem, ht]

/-- Indexing by -1 a nonempty list yields its last element. -/
theorem pyIndex_neg_one (xs : List JSON) (h : xs ≠ []) :
    pyIndex xs (-1) = .ok (xs.getLast h) := by
  unfold pyIndex
  have hlen : 0 < xs.length := List.length_pos.mpr h
  have hneg : (-1 : Int) < 0 := by decide
  have hb : 0 ≤ (-1 : Int) + (xs.length : Int) ∧ (-1 : Int) + (xs.length : Int) < (xs.length : Int) := by
    omega
  simp only [hneg, if_true, dif_pos hb]
  have ht : ((-1 : Int) + (xs.length : Int)).toNat = xs.length - 1 := by omega
  rw [List.getLast_eq_getElem]
  simp only [List.get_eq_getElem, ht]

/-- Indexing outside the wraparound range raises IndexError. -/
theorem pyIndex_oor (xs : List JSON) (i : Int)
    (h : i < -(xs.length : Int) ∨ (xs.length : Int) ≤ i) :
    pyIndex xs i = .error .indexError := by
  unfold pyIndex
  by_cases hneg : i < 0
  · have : ¬ (0 ≤ i + (xs.length : Int) ∧ i + (xs.length : Int) < (xs.length : Int)) := by omega
    simp only [hneg, if_true, dif_neg this]
  · have : ¬ (0 ≤ i ∧ i < (xs.length : Int)) := by omega
    simp only [hneg, if_false, dif_neg this]

/-- The loop of get_all_radar_frames maps the longest well-formed
prefix of the frame list, keeps the frames already accumulated, and
reports the exception of the first malformed entry. -/
theorem framesLoop_eq (host : JSON) (l : List JSON) :
    ∀ acc : List RadarFrame,
      framesLoop host acc l
        = (acc ++ (l.takeWhile wellFrame).map (mkRadarFrame host), firstFrameErr l) := by
  induction l with
  | nil => intro acc; simp [framesLoop, firstFrameErr]
  | cons f rest ih =>
    intro acc
    cases hp : pySubscript f (.str "path") with
    | error e =>
      simp [framesLoop, hp, firstFrameErr, List.takeWhile_cons, wellFrame, isOkE]
    | ok path =>
      cases ht : pySubscript f (.str "time") with
      | error e =>
        simp [framesLoop, hp, ht, firstFrameErr, List.takeWhile_cons, wellFrame, isOkE]
      | ok time =>
        simp only [framesLoop, hp, ht, ih, firstFrameErr, List.takeWhile_cons,
          wellFrame, isOkE, Bool.and_self, if_true]
        rw [List.append_assoc]
        simp [mkRadarFrame, hp, ht]

/-- The exception of the first malformed frame entry, when there is
one, is a KeyError or a TypeError, both of which the except clause of
get_all_radar_frames catches. -/
theorem firstFrameErr_kt (l : List JSON) :
    firstFrameErr l = none
    ∨ firstFrameErr l = some .keyError
    ∨ firstFrameErr l = some .typeError := by
  induction l with
  | nil => left; rfl
  | cons f rest ih =>
    cases hp : pySubscript f (.str "path") with
    | error e =>
      rcases pySubscript_strkey_err f "path" e hp with he | he <;>
        simp [firstFrameErr, hp, he]
    | ok path =>
      cases ht : pySubscript f (.str "time") with
      | error e =>
        rcases pySubscript_strkey_err f "time" e ht with he | he <;>
          simp [firstFrameErr, hp, ht, he]
      | ok time =>
        simpa [firstFrameErr, hp, ht] using ih

/-- On a dict payload whose radar value is a dict and whose past value
is a list, get_all_radar_frames returns (never raises) the frames of
the longest well-formed prefix of the list, in order. -/
theorem get_all_radar_frames_obj (kvs rkvs : List (String × JSON)) (l : List JSON)
    (h1 : (kvs.lookup "radar").getD (.obj []) = .obj rkvs)
    (h2 : (rkvs.lookup "past").getD (.arr []) = .arr l) :
    get_all_radar_frames (.obj kvs)
      = .ok ((l.takeWhile wellFrame).map
          (mkRadarFrame ((kvs.lookup "host").getD (.str DEFAULT_RADAR_HOST)))) := by
  have hsetup : radarFramesSetup (.obj kvs)
      = .ok ((kvs.lookup "host").getD (.str DEFAULT_RADAR_HOST), l) := by
    simp [radarFramesSetup, dictGet, h1, h2, pyIter]
  rcases firstFrameErr_kt l with h | h | h <;>
    simp [get_all_radar_frames, hsetup, framesLoop_eq, h]

/-- Claim C1 (amended): on a dict payload whose radar value is a dict
and whose past value is a list, get_all_radar_frames always returns a
list (never absent): it maps, in upstream order, the longest
well-formed prefix of radar.past through the tile-URL template rule
and stops at the first structurally anomalous entry, so on an
anomalous payload the result is the prefix built so far — empty only
when the anomaly comes before the first frame; in particular it maps
every entry when all entries are well formed, and returns the empty
list when past is empty. -/
theorem radar_frames_prefix_rule (kvs rkvs : List (String × JSON)) (l : List JSON)
    (h1 : (kvs.lookup "radar").getD (.obj []) = .obj rkvs)
    (h2 : (rkvs.lookup "past").getD (.arr []) = .arr l) :
    get_all_radar_frames (.obj kvs)
      = .ok ((l.takeWhile wellFrame).map
          (mkRadarFrame ((kvs.lookup "host").getD (.str DEFAULT_RADAR_HOST))))
    ∧ ((∀ f ∈ l, wellFrame f = true) →
        get_all_radar_frames (.obj kvs)
          = .ok (l.map (mkRadarFrame ((kvs.lookup "host").getD (.str DEFAULT_RADAR_HOST)))))
    ∧ (l = [] → get_all_radar_frames (.obj kvs) = .ok []) := by
  refine ⟨get_all_radar_frames_obj kvs rkvs l h1 h2, ?_, ?_⟩
  · intro hwf
    rw [get_all_radar_frames_obj kvs rkvs l h1 h2, List.takeWhile_eq_self_iff.mpr hwf]
  · intro he
    subst he
    simpa using get_all_radar_frames_obj kvs rkvs [] h1 h2

/-- Claim C1 witness: a payload with one well-formed frame maps to the
one-frame list with the templated URL. -/
theorem radar_frames_prefix_rule_witness :
    get_all_radar_frames (.obj [("radar", .obj [("past", .arr
        [.obj [("path", .str "/w"), ("time", .int 9)]])])])
      = .ok [{ time := .int 9,
               url := "https://tilecache.rainviewer.com/w/256/\x7bz\x7d/\x7bx\x7d/\x7by\x7d/2/1_1.png" }] := by
  rw [(radar_frames_prefix_rule [("radar", .obj [("past", .arr
        [.obj [("path", .str "/w"), ("time", .int 9)]])])]
      [("past", .arr [.obj [("path", .str "/w"), ("time", .int 9)]])]
      [.obj [("path", .str "/w"), ("time", .int 9)]] rfl rfl).1]
  rfl

/-- Claim C1 counterexample: a payload whose second past entry lacks a
path is a structural anomaly, yet the result is the one-frame prefix,
neither empty nor a mapping of every entry (the setup conjunct shows
the same payload carries two past entries). -/
theorem radar_frames_partial_prefix_cex :
    get_all_radar_frames (.obj [("radar", .obj [("past", .arr
        [.obj [("path", .str "/v2/radar/111"), ("time", .int 111)],
         .obj [("time", .int 222)]])])])
      = .ok [{ time := .int 111,
               url := "https://tilecache.rainviewer.com/v2/radar/111/256/\x7bz\x7d/\x7bx\x7d/\x7by\x7d/2/1_1.png" }]
    ∧ radarFramesSetup (.obj [("radar", .obj [("past", .arr
        [.obj [("path", .str "/v2/radar/111"), ("time", .int 111)],
         .obj [("time", .int 222)]])])])
      = .ok (.str "https://tilecache.rainviewer.com",
          [.obj [("path", .str "/v2/radar/111"), ("time", .int 111)],
           .obj [("time", .int 222)]]) :=
  ⟨rfl, rfl⟩

/-- Claim C4: get_radar_tile_url returns None (never raises) when the
frame list is empty or the index is out of range; on the empty dict
with index 0 it returns None; and any KeyError or IndexError inside it
is caught locally and converted to None, so neither can escape. -/
theorem tile_url_safe (payload : JSON) (idx : Int) :
    get_radar_tile_url (.obj []) 0 = .ok none
    ∧ get_radar_tile_url payload idx ≠ .error .keyError
    ∧ get_radar_tile_url payload idx ≠ .error .indexError
    ∧ (∀ kvs rkvs l, payload = .obj kvs →
        (kvs.lookup "radar").getD (.obj []) = .obj rkvs →
        (rkvs.lookup "past").getD (.arr []) = .arr l →
        (l = [] ∨ idx < -(l.length : Int) ∨ (l.length : Int) ≤ idx) →
        get_radar_tile_url payload idx = .ok none) := by
  refine ⟨rfl, ?_, ?_, ?_⟩
  · unfold get_radar_tile_url catchKeyIndex
    cases hb : tileUrlBody payload idx with
    | ok v => simp
    | error e => cases e <;> simp
  · unfold get_radar_tile_url catchKeyIndex
    cases hb : tileUrlBody payload idx with
    | ok v => simp
    | error e => cases e <;> simp
  · intro kvs rkvs l hp h1 h2 hrange
    subst hp
    have hbody : tileUrlBody (.obj kvs) idx = .ok none ∨
        tileUrlBody (.obj kvs) idx = .error .indexError := by
      unfold tileUrlBody
      simp only [dictGet, h1, h2]
      cases l with
      | nil => left; simp [truthy]
      | cons a as =>
        have hne : (a :: as : List JSON) ≠ [] := by simp
        rcases hrange with h | h | h
        · exact absurd h hne
        · right
          simp [truthy, pySubscript, pyIndex_oor (a :: as) idx (Or.inl h)]
        · right
          simp [truthy, pySubscript, pyIndex_oor (a :: as) idx (Or.inr h)]
    rcases hbody with hb | hb <;> simp [get_radar_tile_url, catchKeyIndex, hb]

/-- Claim C4 witness: out-of-range index 5 on a one-frame payload
gives None. -/
theorem tile_url_safe_witness :
    get_radar_tile_url (.obj [("radar", .obj [("past", .arr [.obj [("path", .str "/w")]])])]) 5
      = .ok none :=
  (tile_url_safe (.obj [("radar", .obj [("past", .arr [.obj [("path", .str "/w")]])])]) 5).2.2.2
    [("radar", .obj [("past", .arr [.obj [("path", .str "/w")]])])]
    [("past", .arr [.obj [("path", .str "/w")]])]
    [.obj [("path", .str "/w")]] rfl rfl rfl (by right; right; decide)

/-- Claim C6: on a payload whose radar.past is nonempty and well
formed, get_radar_tile_url at index -1 yields the URL built from the
last past entry by the template rule host ++ path ++ TILE_SUFFIX, and
that URL is exactly the url field of the last frame returned by
get_all_radar_frames. -/
theorem tile_url_last (kvs rkvs : List (String × JSON)) (l : List JSON) (hs : String)
    (h1 : (kvs.lookup "radar").getD (.obj []) = .obj rkvs)
    (h2 : (rkvs.lookup "past").getD (.arr []) = .arr l)
    (h3 : (kvs.lookup "host").getD (.str DEFAULT_RADAR_HOST) = .str hs)
    (h4 : l ≠ [])
    (h5 : ∀ f ∈ l, wellFrame f = true) :
    get_radar_tile_url (.obj kvs) (-1)
      = .ok (some (hs ++ pyStr (framePath (l.getLast h4)) ++ TILE_SUFFIX))
    ∧ ∃ frames, get_all_radar_frames (.obj kvs) = .ok frames
        ∧ frames.getLast? = some (mkRadarFrame (.str hs) (l.getLast h4))
        ∧ (mkRadarFrame (.str hs) (l.getLast h4)).url
            = hs ++ pyStr (framePath (l.getLast h4)) ++ TILE_SUFFIX := by
  have hlastmem : l.getLast h4 ∈ l := List.getLast_mem h4
  have hwl : wellFrame (l.getLast h4) = true := h5 _ hlastmem
  have hpath : ∃ p, pySubscript (l.getLast h4) (.str "path") = .ok p := by
    unfold wellFrame at hwl
    cases hp : pySubscript (l.getLast h4) (.str "path") with
    | ok p => exact ⟨p, rfl⟩
    | error e => rw [hp] at hwl; simp [isOkE] at hwl
  obtain ⟨p, hp⟩ := hpath
  have hfp : framePath (l.getLast h4) = p := by simp [framePath, hp]
  have hurl : (mkRadarFrame (.str hs) (l.getLast h4)).url
      = hs ++ pyStr (framePath (l.getLast h4)) ++ TILE_SUFFIX := by
    simp [mkRadarFrame, hp, hfp, pyStr]
  refine ⟨?_, ?_⟩
  · have hemp : ¬ l.isEmpty := fun hi => h4 (List.isEmpty_iff.mp (by simpa using hi))
    unfold get_radar_tile_url catchKeyIndex tileUrlBody
    simp only [dictGet, h1, h2, h3]
    have hidx : pySubscript (.arr l) (.int (-1)) = .ok (l.getLast h4) := by
      simp [pySubscript, pyIndex_neg_one l h4]
    simp [truthy, hemp, hidx, hp, hfp, pyStr]
  · refine ⟨l.map (mkRadarFrame (.str hs)), ?_, ?_, hurl⟩
    · have := get_all_radar_frames_obj kvs rkvs l h1 h2
      rw [List.takeWhile_eq_self_iff.mpr h5, h3] at this
      exact this
    · rw [List.getLast?_map, List.getLast?_eq_getLast l h4]
      rfl

/-- Claim C6 witness: concrete two-frame payload with an explicit
host; the URL at index -1 comes from the second frame. -/
theorem tile_url_last_witness :
    get_radar_tile_url (.obj [("host", .str "https://h"), ("radar", .obj [("past", .arr
        [.obj [("path", .str "/a"), ("time", .int 1)],
         .obj [("path", .str "/b"), ("time", .int 2)]])])]) (-1)
      = .ok (some ("https://h" ++ pyStr (framePath (JSON.obj [("path", .str "/b"), ("time", .int 2)])) ++ TILE_SUFFIX)) :=
  (tile_url_last [("host", .str "https://h"), ("radar", .obj [("past", .arr
        [.obj [("path", .str "/a"), ("time", .int 1)],
         .obj [("path", .str "/b"), ("time", .int 2)]])])]
      [("past", .arr
        [.obj [("path", .str "/a"), ("time", .int 1)],
         .obj [("path", .str "/b"), ("time", .int 2)]])]
      [.obj [("path", .str "/a"), ("time", .int 1)],
       .obj [("path", .str "/b"), ("time", .int 2)]]
      "https://h" rfl rfl rfl (by simp)
      (by intro f hf; fin_cases hf <;> rfl)).1

/-- Claim C10: when the payload has no host key, both normalizers fall
back to the same default host, so for every frame index the URL that
get_radar_tile_url returns is exactly the url field of the
corresponding frame of get_all_radar_frames, both prefixed by the
default host. -/
theorem default_host_agreement (kvs rkvs : List (String × JSON)) (l : List JSON)
    (hh : kvs.lookup "host" = none)
    (h1 : (kvs.lookup "radar").getD (.obj []) = .obj rkvs)
    (h2 : (rkvs.lookup "past").getD (.arr []) = .arr l)
    (h5 : ∀ f ∈ l, wellFrame f = true) :
    ∀ i : Nat, i < l.length →
      ∃ f, l[i]? = some f
        ∧ get_radar_tile_url (.obj kvs) (i : Int)
            = .ok (some (DEFAULT_RADAR_HOST ++ pyStr (framePath f) ++ TILE_SUFFIX))
        ∧ ∃ frames, get_all_radar_frames (.obj kvs) = .ok frames
            ∧ frames[i]? = some (mkRadarFrame (.str DEFAULT_RADAR_HOST) f)
            ∧ (mkRadarFrame (.str DEFAULT_RADAR_HOST) f).url
                = DEFAULT_RADAR_HOST ++ pyStr (framePath f) ++ TILE_SUFFIX := by
  intro i hi
  have hmem : l[i] ∈ l := List.getElem_mem hi
  have hwf : wellFrame l[i] = true := h5 _ hmem
  have hpath : ∃ p, pySubscript l[i] (.str "path") = .ok p := by
    unfold wellFrame at hwf
    cases hp : pySubscript l[i] (.str "path") with
    | ok p => exact ⟨p, rfl⟩
    | error e => rw [hp] at hwf; simp [isOkE] at hwf
  obtain ⟨p, hp⟩ := hpath
  have hfp : framePath l[i] = p := by simp [framePath, hp]
  refine ⟨l[i], by simp, ?_, ?_⟩
  · have hemp : ¬ l.isEmpty := by
      intro he
      rw [List.isEmpty_iff.mp he] at hi
      simp at hi
    unfold get_radar_tile_url catchKeyIndex tileUrlBody
    simp only [dictGet, h1, h2, hh]
    have hidx : pySubscript (.arr l) (.int (i : Int)) = .ok l[i] := by
      simp [pySubscript, pyIndex_nat l i hi]
    simp [truthy, hemp, hidx, hp, hfp, pyStr, DEFAULT_RADAR_HOST]
  · refine ⟨l.map (mkRadarFrame (.str DEFAULT_RADAR_HOST)), ?_, ?_, ?_⟩
    · have := get_all_radar_frames_obj kvs rkvs l h1 h2
      rw [List.takeWhile_eq_self_iff.mpr h5, hh] at this
      exact this
    · rw [List.getElem?_map, List.getElem?_eq_getElem hi]
      rfl
    · simp [mkRadarFrame, hp, framePath, pyStr]

/-- Claim C10 witness: a hostless one-frame payload at index 0. -/
theorem default_host_agreement_witness :
    ∃ f, ([JSON.obj [("path", .str "/q"), ("time", .int 3)]] : List JSON)[0]? = some f
      ∧ get_radar_tile_url (.obj [("radar", .obj [("past", .arr
            [.obj [("path", .str "/q"), ("time", .int 3)]])])]) ((0 : Nat) : Int)
          = .ok (some (DEFAULT_RADAR_HOST ++ pyStr (framePath f) ++ TILE_SUFFIX))
      ∧ ∃ frames, get_all_radar_frames (.obj [("radar", .obj [("past", .arr
            [.obj [("path", .str "/q"), ("time", .int 3)]])])]) = .ok frames
          ∧ frames[0]? = some (mkRadarFrame (.str DEFAULT_RADAR_HOST) f)
          ∧ (mkRadarFrame (.str DEFAULT_RADAR_HOST) f).url
              = DEFAULT_RADAR_HOST ++ pyStr (framePath f) ++ TILE_SUFFIX :=
  default_host_agreement [("radar", .obj [("past", .arr
        [.obj [("path", .str "/q"), ("time", .int 3)]])])]
    [("past", .arr [.obj [("path", .str "/q"), ("time", .int 3)]])]
    [.obj [("path", .str "/q"), ("time", .int 3)]]
    rfl rfl rfl (by intro f hf; fin_cases hf; rfl) 0 (by simp)

/-- Claim C5: whenever the points request fails, fetch_forecast
returns None having issued only that one request: the forecast request
is never attempted. -/
theorem fetch_forecast_short_circuit (net : String → NetResult) (lat lon : String)
    (h : make_nws_request net (.str (pointsUrl lat lon)) = none) :
    fetch_forecast net lat lon = (.ok none, [.str (pointsUrl lat lon)]) := by
  simp only [fetch_forecast, h]

/-- Claim C5 witness: with a transport that always fails, only the
points URL is requested. -/
theorem fetch_forecast_short_circuit_witness :
    fetch_forecast (fun _ => .transportError) "40.7128" "-74.006"
      = (.ok none, [.str (pointsUrl "40.7128" "-74.006")]) :=
  fetch_forecast_short_circuit (fun _ => .transportError) "40.7128" "-74.006" rfl

/-- Claim C2 counterexample: a reachable points endpoint whose truthy
payload lacks the properties key makes fetch_forecast raise KeyError
to its caller instead of returning absent. -/
theorem fetch_forecast_keyerror_cex :
    (fetch_forecast (fun _ => .ok (.obj [("title", .str "x")])) "40.7128" "-74.006").1
      = .error .keyError := rfl

/-- Claim C2 (amended): make_nws_request collapses transport errors,
non-2xx statuses and unparseable bodies into None, and fetch_forecast
returns None without raising whenever either of its two requests comes
back None or with a falsy body; but when a request succeeds with a
truthy payload that lacks the expected properties key, the lookup is
outside any try block and a KeyError escapes fetch_forecast to the
caller. -/
theorem fetch_forecast_error_collapse (net : String → NetResult) (lat lon : String) :
    (∀ url : String,
        (net url = .transportError ∨ net url = .httpError ∨ net url = .badJson) →
        make_nws_request net (.str url) = none)
    ∧ (make_nws_request net (.str (pointsUrl lat lon)) = none →
        fetch_forecast net lat lon = (.ok none, [.str (pointsUrl lat lon)]))
    ∧ (∀ pkvs props furl,
        make_nws_request net (.str (pointsUrl lat lon)) = some (.obj pkvs) →
        pkvs.lookup "properties" = some props →
        pySubscript props (.str "forecast") = .ok furl →
        make_nws_request net furl = none →
        fetch_forecast net lat lon = (.ok none, [.str (pointsUrl lat lon), furl]))
    ∧ (∀ pkvs,
        make_nws_request net (.str (pointsUrl lat lon)) = some (.obj pkvs) →
        pkvs ≠ [] →
        pkvs.lookup "properties" = none →
        (fetch_forecast net lat lon).1 = .error .keyError) := by
  refine ⟨?_, fetch_forecast_short_circuit net lat lon, ?_, ?_⟩
  · intro url hf
    rcases hf with h | h | h <;> simp only [make_nws_request, h]
  · intro pkvs props furl hreq hprops hfurl hforecast
    have hne : pkvs ≠ [] := by
      intro he
      subst he
      simp [List.lookup] at hprops
    have hemp : ¬ pkvs.isEmpty := fun he => hne (List.isEmpty_iff.mp he)
    simp only [fetch_forecast, hreq]
    simp [truthy, hemp, pySubscript_obj_some pkvs "properties" props hprops, hfurl, hforecast]
  · intro pkvs hreq hne hnone
    have hemp : ¬ pkvs.isEmpty := fun he => hne (List.isEmpty_iff.mp he)
    simp only [fetch_forecast, hreq]
    simp [truthy, hemp, pySubscript_obj_none pkvs "properties" hnone]

/-- Claim C2 witness: with a transport that serves a well-formed
points payload and then fails, fetch_forecast returns None after two
requests. -/
theorem fetch_forecast_error_collapse_witness :
    fetch_forecast
        (fun u => if u == pointsUrl "40.7128" "-74.006"
          then .ok (.obj [("properties", .obj [("forecast", .str "https://f")])])
          else .transportError)
        "40.7128" "-74.006"
      = (.ok none, [.str (pointsUrl "40.7128" "-74.006"), .str "https://f"]) :=
  (fetch_forecast_error_collapse
      (fun u => if u == pointsUrl "40.7128" "-74.006"
        then .ok (.obj [("properties", .obj [("forecast", .str "https://f")])])
        else .transportError)
      "40.7128" "-74.006").2.2.1
    [("properties", .obj [("forecast", .str "https://f")])]
    (.obj [("forecast", .str "https://f")]) (.str "https://f")
    (by simp [make_nws_request, pointsUrl, NWS_API_BASE])
    rfl rfl
    (by simp [make_nws_request, pointsUrl, NWS_API_BASE])

/-- Claim C8: fetch_alerts returns None exactly when the request comes
back None or the (dict) payload has no features key, and otherwise
returns the raw features value unchanged. -/
theorem fetch_alerts_spec (net : String → NetResult) (state : String) :
    (make_nws_request net (.str (alertsUrl state)) = none → fetch_alerts net state = .ok none)
    ∧ (∀ kvs, make_nws_request net (.str (alertsUrl state)) = some (.obj kvs) →
        ((kvs.lookup "features" = none → fetch_alerts net state = .ok none)
         ∧ (∀ v, kvs.lookup "features" = some v → fetch_alerts net state = .ok (some v)))) := by
  constructor
  · intro h
    simp only [fetch_alerts, h]
  · intro kvs hreq
    constructor
    · intro hn
      simp only [fetch_alerts, hreq]
      by_cases hke : kvs.isEmpty
      · simp [truthy, hke]
      · simp [truthy, hke, pyContains, lookup_none_any kvs "features" hn]
    · intro v hv
      have hne : ¬ kvs.isEmpty := by
        intro he
        rw [List.isEmpty_iff.mp he] at hv
        simp [List.lookup] at hv
      simp only [fetch_alerts, hreq]
      simp [truthy, hne, pyContains, lookup_some_any kvs "features" v hv,
        pySubscript_obj_some kvs "features" v hv]

/-- Claim C8 witness: a reachable endpoint with a features list gets
it back unchanged. -/
theorem fetch_alerts_spec_witness :
    fetch_alerts (fun _ => .ok (.obj [("features", .arr [.str "f1", .str "f2"])])) "CA"
      = .ok (some (.arr [.str "f1", .str "f2"])) :=
  ((fetch_alerts_spec (fun _ => .ok (.obj [("features", .arr [.str "f1", .str "f2"])])) "CA").2
    [("features", .arr [.str "f1", .str "f2"])] rfl).2 (.arr [.str "f1", .str "f2"]) rfl

/-- Claim C7: fetch_multi_model_comparison returns exactly the keys
gfs and ecmwf, bound to the respective independent results of
fetch_model_forecast; and each binding depends only on how the
transport answers that model's own request, so a failure of one model
cannot change the other's result. -/
theorem multi_model_independence (lat lon : String) (varList : Option (List String)) :
    (∀ net, (fetch_multi_model_comparison net lat lon varList).map Prod.fst = ["gfs", "ecmwf"])
    ∧ (∀ net,
        (fetch_multi_model_comparison net lat lon varList).lookup "gfs"
          = some (fetch_model_forecast net lat lon "gfs_seamless" varList)
        ∧ (fetch_multi_model_comparison net lat lon varList).lookup "ecmwf"
          = some (fetch_model_forecast net lat lon "ecmwf_ifs" varList))
    ∧ (∀ net₁ net₂,
        (∀ p : OMParams, p.models = "gfs_seamless" → net₁ p = net₂ p) →
        (fetch_multi_model_comparison net₁ lat lon varList).lookup "gfs"
          = (fetch_multi_model_comparison net₂ lat lon varList).lookup "gfs")
    ∧ (∀ net₁ net₂,
        (∀ p : OMParams, p.models = "ecmwf_ifs" → net₁ p = net₂ p) →
        (fetch_multi_model_comparison net₁ lat lon varList).lookup "ecmwf"
          = (fetch_multi_model_comparison net₂ lat lon varList).lookup "ecmwf") := by
  refine ⟨fun net => rfl, fun net => ⟨rfl, rfl⟩, ?_, ?_⟩
  · intro net₁ net₂ hagree
    have heq := hagree
      (OMParams.mk lat lon "gfs_seamless"
        (",".intercalate (varList.getD DEFAULT_VARIABLES)) "auto" 7) rfl
    simp [fetch_multi_model_comparison, fetch_model_forecast, heq]
  · intro net₁ net₂ hagree
    have heq := hagree
      (OMParams.mk lat lon "ecmwf_ifs"
        (",".intercalate (varList.getD DEFAULT_VARIABLES)) "auto" 7) rfl
    simp only [fetch_multi_model_comparison, fetch_model_forecast, heq]
    rfl

/-- Claim C7 witness: with the ECMWF upstream unreachable under one
transport and healthy under another, the GFS binding is the same. -/
theorem multi_model_independence_witness :
    (fetch_multi_model_comparison
        (fun p => if p.models == "gfs_seamless" then .ok (.obj [("hourly", .null)]) else .transportError)
        "40" "-74" none).lookup "gfs"
      = (fetch_multi_model_comparison
          (fun p => if p.models == "gfs_seamless" then .ok (.obj [("hourly", .null)]) else .ok .null)
          "40" "-74" none).lookup "gfs" :=
  (multi_model_independence "40" "-74" none).2.2.1
    (fun p => if p.models == "gfs_seamless" then .ok (.obj [("hourly", .null)]) else .transportError)
    (fun p => if p.models == "gfs_seamless" then .ok (.obj [("hourly", .null)]) else .ok .null)
    (by intro p hp; simp [hp])

/-- A successful sequencing of two guarded trace blocks splits into
their successful results, concatenated in order. -/
theorem traceSeq_ok (a b : Except PyErr (List Trace)) (ts : List Trace)
    (h : traceSeq a b = .ok ts) :
    ∃ ta tb, a = .ok ta ∧ b = .ok tb ∧ ts = ta ++ tb := by
  cases ha : a with
  | error e =>
    have hval : traceSeq a b = .error e := by rw [traceSeq.eq_def, ha]
    rw [hval] at h
    simp at h
  | ok ta =>
    cases hb : b with
    | error e =>
      have hval : traceSeq a b = .error e := by rw [traceSeq.eq_def, ha, hb]
      rw [hval] at h
      simp at h
    | ok tb =>
      have hval : traceSeq a b = .ok (ta ++ tb) := by rw [traceSeq.eq_def, ha, hb]
      rw [hval] at h
      exact ⟨ta, tb, rfl, rfl, (Except.ok.inj h).symm⟩

/-- A successful guarded trace block yields either no trace or exactly
one trace built from a present, truthy payload whose hourly dict holds
both the time series and the requested variable. -/
theorem modelTrace_ok_cases (d : Option JSON) (label v : String) (ts : List Trace)
    (h : modelTrace d label v = .ok ts) :
    ts = [] ∨ ∃ dj hourly xs ys, d = some dj ∧ truthy dj = true
      ∧ pySubscript dj (.str "hourly") = .ok hourly
      ∧ pySubscript hourly (.str "time") = .ok xs
      ∧ pySubscript hourly (.str v) = .ok ys
      ∧ ts = [{ name := label, x := xs, y := ys }] := by
  cases d with
  | none =>
    left
    exact (Except.ok.inj h).symm
  | some dj =>
    by_cases htr : truthy dj
    · cases hcb : pyContains dj "hourly" with
      | error e =>
        have hval : modelTrace (some dj) label v = .error e := by
          unfold modelTrace
          simp [htr, hcb]
        rw [hval] at h
        simp at h
      | ok b =>
        cases b with
        | false =>
          left
          have hval : modelTrace (some dj) label v = .ok [] := by
            unfold modelTrace
            simp [htr, hcb]
          rw [hval] at h
          exact (Except.ok.inj h).symm
        | true =>
          cases hh : pySubscript dj (.str "hourly") with
          | error e =>
            have hval : modelTrace (some dj) label v = .error e := by
              unfold modelTrace
              simp [htr, hcb, hh]
            rw [hval] at h
            simp at h
          | ok hourly =>
            cases hx : pySubscript hourly (.str "time") with
            | error e =>
              have hval : modelTrace (some dj) label v = .error e := by
                unfold modelTrace
                simp [htr, hcb, hh, hx]
              rw [hval] at h
              simp at h
            | ok xs =>
              cases hy : pySubscript hourly (.str v) with
              | error e =>
                have hval : modelTrace (some dj) label v = .error e := by
                  unfold modelTrace
                  simp [htr, hcb, hh, hx, hy]
                rw [hval] at h
                simp at h
              | ok ys =>
                have hval : modelTrace (some dj) label v
                    = .ok [{ name := label, x := xs, y := ys }] := by
                  unfold modelTrace
                  simp [htr, hcb, hh, hx, hy]
                rw [hval] at h
                right
                exact ⟨dj, hourly, xs, ys, rfl, htr, hh, hx, hy, (Except.ok.inj h).symm⟩
    · left
      have hval : modelTrace (some dj) label v = .ok [] := by
        unfold modelTrace
        simp [htr]
      rw [hval] at h
      exact (Except.ok.inj h).symm

/-- Every trace emitted by a guarded block carries the label of that
block. -/
theorem modelTrace_names (d : Option JSON) (label v : String) (ts : List Trace)
    (h : modelTrace d label v = .ok ts) : ∀ t ∈ ts, t.name = label := by
  intro t ht
  rcases modelTrace_ok_cases d label v ts h with he | ⟨dj, hourly, xs, ys, _, _, _, _, _, he⟩
  · subst he; simp at ht
  · subst he
    rw [List.mem_singleton] at ht
    rw [ht]

/-- Claim C3: chart builders add a trace for a model only if that
model's response is present, truthy, and carries the hourly series of
the required variable; absent responses contribute zero traces and
never cause an error; with gfs absent and ecmwf present the
temperature chart holds exactly the one ECMWF trace, and with both
absent every builder returns an empty trace list without raising. -/
theorem chart_traces (gfs ecmwf : Option JSON) :
    (create_temperature_comparison_chart none none = .ok []
     ∧ create_precipitation_comparison_chart none none = .ok []
     ∧ create_wind_comparison_chart none none = .ok []
     ∧ create_multi_variable_dashboard none none = .ok [])
    ∧ (∀ fig, create_temperature_comparison_chart gfs ecmwf = .ok fig →
        ((∃ t ∈ fig, t.name = "GFS") →
          ∃ d hourly ys, gfs = some d ∧ truthy d = true
            ∧ pySubscript d (.str "hourly") = .ok hourly
            ∧ pySubscript hourly (.str "temperature_2m") = .ok ys)
        ∧ ((∃ t ∈ fig, t.name = "ECMWF") →
          ∃ d hourly ys, ecmwf = some d ∧ truthy d = true
            ∧ pySubscript d (.str "hourly") = .ok hourly
            ∧ pySubscript hourly (.str "temperature_2m") = .ok ys))
    ∧ (∀ dk hk xs ys, ecmwf = some (.obj dk) →
        dk.lookup "hourly" = some (.obj hk) →
        hk.lookup "time" = some xs →
        hk.lookup "temperature_2m" = some ys →
        create_temperature_comparison_chart none ecmwf
          = .ok [{ name := "ECMWF", x := xs, y := ys }])
    ∧ (∀ fig, create_multi_variable_dashboard none ecmwf = .ok fig →
        ∀ t ∈ fig, t.name = "ECMWF" ∨ t.name = "ECMWF Precip"
          ∨ t.name = "ECMWF Wind" ∨ t.name = "ECMWF Humidity") := by
  refine ⟨⟨rfl, rfl, rfl, rfl⟩, ?_, ?_, ?_⟩
  · intro fig h
    unfold create_temperature_comparison_chart at h
    obtain ⟨ta, tb, ha, hb, rfl⟩ := traceSeq_ok _ _ _ h
    constructor
    · rintro ⟨t, htm, hname⟩
      rcases List.mem_append.mp htm with hta | htb
      · rcases modelTrace_ok_cases gfs "GFS" "temperature_2m" ta ha with
          he | ⟨dj, hourly, xs, ys, hd, htr, hh, hx, hy, he⟩
        · subst he; simp at hta
        · exact ⟨dj, hourly, ys, hd, htr, hh, hy⟩
      · have hn := modelTrace_names ecmwf "ECMWF" "temperature_2m" tb hb t htb
        rw [hname] at hn
        simp at hn
    · rintro ⟨t, htm, hname⟩
      rcases List.mem_append.mp htm with hta | htb
      · have hn := modelTrace_names gfs "GFS" "temperature_2m" ta ha t hta
        rw [hname] at hn
        simp at hn
      · rcases modelTrace_ok_cases ecmwf "ECMWF" "temperature_2m" tb hb with
          he | ⟨dj, hourly, xs, ys, hd, htr, hh, hx, hy, he⟩
        · subst he; simp at htb
        · exact ⟨dj, hourly, ys, hd, htr, hh, hy⟩
  · intro dk hk xs ys hd hh hx hy
    subst hd
    have hne : ¬ dk.isEmpty := by
      intro he
      rw [List.isEmpty_iff.mp he] at hh
      simp [List.lookup] at hh
    have hval : modelTrace (some (.obj dk)) "ECMWF" "temperature_2m"
        = .ok [{ name := "ECMWF", x := xs, y := ys }] := by
      unfold modelTrace
      simp [truthy, hne, pyContains, lookup_some_any dk "hourly" (.obj hk) hh,
        pySubscript_obj_some dk "hourly" (.obj hk) hh,
        pySubscript_obj_some hk "time" xs hx,
        pySubscript_obj_some hk "temperature_2m" ys hy]
    unfold create_temperature_comparison_chart
    rw [traceSeq.eq_def, hval]
    rfl
  · intro fig h t htm
    unfold create_multi_variable_dashboard at h
    obtain ⟨t1, r1, h1, hr1, rfl⟩ := traceSeq_ok _ _ _ h
    have e1 : t1 = [] := (Except.ok.inj h1).symm
    subst e1
    obtain ⟨t2, r2, h2, hr2, rfl⟩ := traceSeq_ok _ _ _ hr1
    obtain ⟨t3, r3, h3, hr3, rfl⟩ := traceSeq_ok _ _ _ hr2
    have e3 : t3 = [] := (Except.ok.inj h3).symm
    subst e3
    obtain ⟨t4, r4, h4, hr4, rfl⟩ := traceSeq_ok _ _ _ hr3
    obtain ⟨t5, r5, h5, hr5, rfl⟩ := traceSeq_ok _ _ _ hr4
    have e5 : t5 = [] := (Except.ok.inj h5).symm
    subst e5
    obtain ⟨t6, r6, h6, hr6, rfl⟩ := traceSeq_ok _ _ _ hr5
    obtain ⟨t7, t8, h7, h8, rfl⟩ := traceSeq_ok _ _ _ hr6
    have e7 : t7 = [] := (Except.ok.inj h7).symm
    subst e7
    simp only [List.nil_append, List.mem_append] at htm
    rcases htm with hm | hm | hm | hm
    · exact Or.inl (modelTrace_names ecmwf "ECMWF" "temperature_2m" t2 h2 t hm)
    · exact Or.inr (Or.inl (modelTrace_names ecmwf "ECMWF Precip" "precipitation" t4 h4 t hm))
    · exact Or.inr (Or.inr (Or.inl
        (modelTrace_names ecmwf "ECMWF Wind" "wind_speed_10m" t6 h6 t hm)))
    · exact Or.inr (Or.inr (Or.inr
        (modelTrace_names ecmwf "ECMWF Humidity" "relative_humidity_2m" t8 h8 t hm)))

/-- Claim C3 witness: gfs absent and a well-formed ecmwf payload give
the temperature chart exactly one ECMWF trace. -/
theorem chart_traces_witness :
    create_temperature_comparison_chart none
        (some (.obj [("hourly", .obj [("time", .arr [.str "t0"]), ("temperature_2m", .arr [.int 20])])]))
      = .ok [{ name := "ECMWF", x := .arr [.str "t0"], y := .arr [.int 20] }] :=
  (chart_traces none
      (some (.obj [("hourly", .obj [("time", .arr [.str "t0"]), ("temperature_2m", .arr [.int 20])])]))).2.2.1
    [("hourly", .obj [("time", .arr [.str "t0"]), ("temperature_2m", .arr [.int 20])])]
    [("time", .arr [.str "t0"]), ("temperature_2m", .arr [.int 20])]
    (.arr [.str "t0"]) (.arr [.int 20]) rfl rfl rfl rfl

/-- A well-formed alert is mapped by the loop body to its predicted
element: a palette-colored shape for polygonal geometry, the fallback
marker otherwise. -/
theorem alertElement_wf (a : JSON) (h : WellFormedAlert a) :
    alertElement a = .ok (expectedAlertElement a) := by
  obtain ⟨akvs, pkvs, rfl, hp, hsev, hgeo⟩ := h
  have hprops : dictGet (.obj akvs) "properties" (.obj []) = .ok (.obj pkvs) := by
    simp [dictGet, hp]
  have hgeov : dictGet (.obj akvs) "geometry" .null
      = .ok ((akvs.lookup "geometry").getD .null) := by
    simp [dictGet]
  have hsevv : dictGet (.obj pkvs) "severity" (.str "Unknown")
      = .ok ((pkvs.lookup "severity").getD (.str "Unknown")) := by
    simp [dictGet]
  have hcol : ∃ c, severityColor ((pkvs.lookup "severity").getD (.str "Unknown")) = .ok c := by
    cases hs : (pkvs.lookup "severity").getD (.str "Unknown") with
    | arr xs => rw [hs] at hsev; simp [isHashable] at hsev
    | obj kv => rw [hs] at hsev; simp [isHashable] at hsev
    | str s => exact ⟨(SEVERITY_COLORS.lookup s).getD "#808080", rfl⟩
    | null => exact ⟨"#808080", rfl⟩
    | bool b => exact ⟨"#808080", rfl⟩
    | int n => exact ⟨"#808080", rfl⟩
  obtain ⟨c, hc⟩ := hcol
  have hcolor : alertColor (.obj akvs) = c := by
    simp [alertColor, alertSeverity, alertProps, hprops, hsevv, hc]
  have hgeoa : alertGeom (.obj akvs) = (akvs.lookup "geometry").getD .null := by
    simp [alertGeom, dictGet]
  by_cases htg : truthy ((akvs.lookup "geometry").getD .null)
  · obtain ⟨gkvs, hg⟩ := hgeo htg
    have htype : dictGet ((akvs.lookup "geometry").getD .null) "type" .null
        = .ok ((gkvs.lookup "type").getD .null) := by
      rw [hg]
      simp [dictGet]
    unfold alertElement
    rw [hprops]
    simp only [hgeov, hsevv, hc, dictGet, htg, if_true, htype]
    unfold expectedAlertElement alertIsPolygonal
    rw [hgeoa, hcolor, htg, htype]
    by_cases hpoly : isPolygonalType ((gkvs.lookup "type").getD .null)
    · simp [hg, hpoly]
    · simp [hg, hpoly]
  · unfold alertElement
    rw [hprops]
    simp only [hgeov, hsevv, hc, dictGet, htg, if_false]
    unfold expectedAlertElement alertIsPolygonal
    rw [hgeoa]
    simp [htg]

/-- The alerts loop over well-formed alerts returns one predicted
element per alert, in order. -/
theorem alertsLoop_wf (alerts : List JSON) (h : ∀ a ∈ alerts, WellFormedAlert a) :
    alertsLoop alerts = .ok (alerts.map expectedAlertElement) := by
  induction alerts with
  | nil => rfl
  | cons a rest ih =>
    have ha := alertElement_wf a (h a (List.mem_cons_self a rest))
    have hr := ih (fun b hb => h b (List.mem_cons_of_mem a hb))
    simp only [alertsLoop]
    rw [ha, hr]
    rfl

/-- Claim C9: for well-formed alerts, create_alerts_map adds exactly
one element per alert — a shape in the palette color of its severity
when the geometry type is Polygon or MultiPolygon, a fallback marker
pin otherwise; in particular two polygonal alerts of severities
Extreme and Minor yield exactly two shapes colored #FF0000 and
#00FF00. -/
theorem alerts_map_elements (alerts : List JSON) (sc : String) :
    ((∀ a ∈ alerts, WellFormedAlert a) →
      create_alerts_map alerts sc = .ok (alerts.map expectedAlertElement)
      ∧ (alerts.map expectedAlertElement).length = alerts.length)
    ∧ create_alerts_map
        [ .obj [("properties", .obj [("severity", .str "Extreme")]),
                ("geometry", .obj [("type", .str "Polygon"), ("coordinates", .arr [])])],
          .obj [("properties", .obj [("severity", .str "Minor")]),
                ("geometry", .obj [("type", .str "Polygon"), ("coordinates", .arr [])])] ] "CA"
      = .ok [ .geoShape "#FF0000" (.obj [("type", .str "Polygon"), ("coordinates", .arr [])]),
              .geoShape "#00FF00" (.obj [("type", .str "Polygon"), ("coordinates", .arr [])]) ] := by
  constructor
  · intro h
    exact ⟨alertsLoop_wf alerts h, List.length_map alerts expectedAlertElement⟩
  · rfl

/-- Claim C9 witness: a single alert without geometry becomes the one
fallback marker. -/
theorem alerts_map_elements_witness :
    create_alerts_map [.obj [("properties", .obj [("severity", .str "Severe")])]] "TX"
      = .ok ([.obj [("properties", .obj [("severity", .str "Severe")])]].map expectedAlertElement)
    ∧ (([.obj [("properties", .obj [("severity", .str "Severe")])]] : List JSON).map
        expectedAlertElement).length
      = ([.obj [("properties", .obj [("severity", .str "Severe")])]] : List JSON).length :=
  (alerts_map_elements [.obj [("properties", .obj [("severity", .str "Severe")])]] "TX").1
    (by
      intro a ha
      fin_cases ha
      exact ⟨[("properties", .obj [("severity", .str "Severe")])],
        [("severity", .str "Severe")], rfl, rfl, rfl,
        fun hg => absurd hg (by decide)⟩)
